import Mathlib

/-!
Verification development for the "Catan Studio" front-end.

The code under study is the asynchronous orchestration in
`services/geminiService.ts` (`urlToBase64`, `generateImages`) together with
the `handleGenerateClick` callback of `App.tsx`.  The JavaScript is embedded
shallowly:

* A network environment `Env` supplies the outcome of every `fetch` (proxy
  and direct path) and of every `ai.models.generateContent` call; the code
  itself is deterministic given the environment.
* Promises are settled in an explicit completion order (a list of indices):
  `Promise.all` resolves to the value array in index order when every
  promise fulfills, and otherwise rejects with the reason of the first
  promise, in completion order, to reject.
* A fetched `Blob` is modelled by its MIME type and the base64 rendering of
  its bytes (what `FileReader.readAsDataURL` produces after the comma); an
  empty base64 string models the falsy `split(',')[1]` read failure.
* Thrown `Error` values are modelled by their message strings; the unguarded
  `response.candidates[0].content.parts` access on a response without
  candidates is modelled by a distinguished `fault` error (the runtime
  `TypeError`), separate from the errors the code constructs itself.
-/

namespace CatanStudio

/-- A fetched blob: its MIME `type` and the base64 rendering of its bytes
(the part of the `FileReader` data URL after the comma).  An empty `base64`
models the case where `(reader.result as string)?.split(',')[1]` is falsy. -/
structure Blob where
  type : String
  base64 : String
deriving Repr, DecidableEq

/-- Result of `urlToBase64`: `{ base64, mimeType }`. -/
structure ImagePayload where
  base64 : String
  mimeType : String
deriving Repr, DecidableEq

/-- An `inlineData` payload as it appears in request and response parts:
`{ data, mimeType }`. -/
structure InlineData where
  data : String
  mimeType : String
deriving Repr, DecidableEq

/-- Outcome of one `fetch` call: either the promise rejects (network error,
e.g. a CORS block), or a response arrives with its `ok` flag, `statusText`
and body blob. -/
inductive FetchOutcome where
  | networkError (msg : String)
  | response (ok : Bool) (statusText : String) (blob : Blob)
deriving Repr, DecidableEq

/-- One fetch attempt made by `urlToBase64`, for counting attempts:
either the proxied fetch of `url` (through `https://api.allorigins.win`)
or the direct fetch of `url`. -/
inductive FetchAttempt where
  | proxy (url : String)
  | direct (url : String)
deriving Repr, DecidableEq

/-- A request `Part`: `{ text }` or `{ inlineData }`. -/
inductive Part where
  | text (text : String)
  | inlineData (d : InlineData)
deriving Repr, DecidableEq

/-- `Modality` of the `@google/genai` SDK (only `IMAGE` is used here). -/
inductive Modality where
  | IMAGE
  | TEXT
deriving Repr, DecidableEq

/-- The argument of one `ai.models.generateContent` call: the model name,
the `contents.parts` list and the `config.responseModalities`. -/
structure GenRequest where
  model : String
  parts : List Part
  responseModalities : List Modality
deriving Repr, DecidableEq

/-- A part of a generation response; only its optional `inlineData` field is
read by the code. -/
structure RespPart where
  inlineData : Option InlineData
deriving Repr, DecidableEq

/-- The `content` object of a response candidate. -/
structure Content where
  parts : List RespPart
deriving Repr, DecidableEq

/-- One response candidate. -/
structure Candidate where
  content : Content
deriving Repr, DecidableEq

/-- A `generateContent` response: its `candidates` list. -/
structure GenResponse where
  candidates : List Candidate
deriving Repr, DecidableEq

/-- An error escaping `generateImages`: either an `Error` thrown with a
message (`thrown`), or the runtime `TypeError` raised by the unguarded
`response.candidates[0].content.parts` access when there is no candidate
(`fault`). -/
inductive GenError where
  | thrown (msg : String)
  | fault
deriving Repr, DecidableEq

/-- The `message` the UI reads off a caught error (`e.message`); for the
runtime fault it is the engine's `TypeError` text. -/
def GenError.message : GenError → String
  | .thrown msg => msg
  | .fault => "Cannot read properties of undefined (reading 'content')"

/-- The network environment: outcome of the proxied fetch of a URL
(`fetch` of `https://api.allorigins.win/raw?url=` ++ the encoded URL),
outcome of the direct fetch of a URL, and outcome of the `i`-th
`generateContent` call for a given request (`.error` models a rejected SDK
call, `.ok` a response object). -/
structure Env where
  proxyFetch : String → FetchOutcome
  directFetch : String → FetchOutcome
  generate : Nat → GenRequest → Except String GenResponse

/-- `processBlob` of `urlToBase64`: reject a blob whose MIME type is not
`image/*`, reject an empty base64 read, otherwise return
`{ base64, mimeType: blob.type }`. -/
def processBlob (blob : Blob) : Except String ImagePayload :=
  if ¬ blob.type.startsWith "image/" then
    .error "Fetched file is not an image."
  else if blob.base64 = "" then
    .error "Failed to read base64 string from image."
  else
    .ok { base64 := blob.base64, mimeType := blob.type }

/-- One fetch attempt body: reject on network error, throw
`failMsg ++ statusText` when `!response.ok`, otherwise process the blob. -/
def fetchBody (outcome : FetchOutcome) (failMsg : String) : Except String ImagePayload :=
  match outcome with
  | .networkError msg => .error msg
  | .response ok statusText blob =>
    if ok then processBlob blob
    else .error (failMsg ++ statusText)

/-- The user-facing error thrown when both the proxy and the direct fetch
fail: it explains the likely cross-origin block and tells the user to paste
a direct image address instead. -/
def urlToBase64FallbackError : String :=
  "No se pudo cargar desde ese enlace. Podría ser una página web o el servidor está bloqueando las solicitudes. Por favor, haz clic derecho en la imagen que quieres usar, selecciona 'Copiar dirección de imagen' y pega ese nuevo enlace aquí."

/-- `urlToBase64`: attempt the proxied fetch; on any failure of that attempt
fall back to one direct fetch of the same URL; if that also fails, throw the
user-facing fallback error.  Returns the result together with the list of
fetch attempts made. -/
def urlToBase64 (env : Env) (url : String) :
    Except String ImagePayload × List FetchAttempt :=
  match fetchBody (env.proxyFetch url) "Proxy fetch failed with status: " with
  | .ok payload => (.ok payload, [.proxy url])
  | .error _ =>
    match fetchBody (env.directFetch url) "Direct fetch failed with status: " with
    | .ok payload => (.ok payload, [.proxy url, .direct url])
    | .error _ => (.error urlToBase64FallbackError, [.proxy url, .direct url])

/-- The request built by `generateImages` for a parts list. -/
def mkGenRequest (parts : List Part) : GenRequest :=
  { model := "gemini-2.5-flash-image"
    parts := parts
    responseModalities := [Modality.IMAGE] }

/-- The `for (const part of response.candidates[0].content.parts)` scan:
the first part carrying `inlineData`, if any. -/
def firstInlinePart : List RespPart → Option InlineData
  | [] => none
  | p :: rest =>
    match p.inlineData with
    | some d => some d
    | none => firstInlinePart rest

/-- Result extraction of call `i`: read `response.candidates[0].content.parts`
without a guard (`fault` when there is no candidate), return the first part
with inline data as a data URL, and otherwise throw
`La imagen ${i+1} no pudo ser generada.`. -/
def extractImage (i : Nat) (response : GenResponse) : Except GenError String :=
  match response.candidates with
  | [] => .error .fault
  | candidate :: _ =>
    match firstInlinePart candidate.content.parts with
    | some d => .ok ("data:" ++ d.mimeType ++ ";base64," ++ d.data)
    | none => .error (.thrown ("La imagen " ++ toString (i + 1) ++ " no pudo ser generada."))

/-- The parts of the request for index `i`: the source initializes
`parts = [{ text: prompt }]` and, when `baseImageUrls[i]` is present
(`baseUrl` truthy, i.e. not the empty string) and non-blank after `trim`,
unshifts the resolved reference image in front of it; a `urlToBase64`
failure is rethrown as `Error con la Imagen Base ${i+1}: ...`. -/
def buildParts (env : Env) (prompt : String) (baseImageUrls : List String) (i : Nat) :
    Except GenError (List Part) :=
  match baseImageUrls[i]? with
  | none => .ok [Part.text prompt]
  | some baseUrl =>
    if baseUrl ≠ "" ∧ baseUrl.trim ≠ "" then
      match (urlToBase64 env baseUrl).1 with
      | .ok payload =>
        .ok [Part.inlineData { data := payload.base64, mimeType := payload.mimeType },
          Part.text prompt]
      | .error msg =>
        .error (.thrown ("Error con la Imagen Base " ++ toString (i + 1) ++ ": " ++ msg))
    else .ok [Part.text prompt]

/-- The promise for index `i` of `generateImages`: build the parts (possibly
failing on the reference image), issue the `generateContent` call, extract
the image. -/
def generateOne (env : Env) (prompt : String) (baseImageUrls : List String) (i : Nat) :
    Except GenError String :=
  match buildParts env prompt baseImageUrls i with
  | .error e => .error e
  | .ok parts =>
    match env.generate i (mkGenRequest parts) with
    | .error msg => .error (.thrown msg)
    | .ok response => extractImage i response

/-- The `generateContent` request issued for index `i`, or `none` when the
reference-image resolution failed and the call was never made. -/
def requestForIndex (env : Env) (prompt : String) (baseImageUrls : List String) (i : Nat) :
    Option GenRequest :=
  match buildParts env prompt baseImageUrls i with
  | .ok parts => some (mkGenRequest parts)
  | .error _ => none

/-- The requests issued by one `generateImages` call, index by index. -/
def issuedRequests (env : Env) (prompt : String) (baseImageUrls : List String)
    (numImages : Nat) : List (Option GenRequest) :=
  (List.range numImages).map (requestForIndex env prompt baseImageUrls)

/-- Collect the values of a result list when every entry fulfilled. -/
def collectOk : List (Except GenError String) → Option (List String)
  | [] => some []
  | .ok v :: rest => (collectOk rest).map (fun vs => v :: vs)
  | .error _ :: _ => none

/-- The reason of the first promise, in completion order, to reject. -/
def firstFailure (results : List (Except GenError String)) : List Nat → Option GenError
  | [] => none
  | i :: rest =>
    match results[i]? with
    | some (Except.error e) => some e
    | _ => firstFailure results rest

/-- `Promise.all`: reject with the reason of the first rejection in
completion `order`; fulfill with the values in index order when every
promise fulfills.  The final branch is unreachable whenever `order` lists
every index (every promise settles); theorems assume that. -/
def promiseAll (results : List (Except GenError String)) (order : List Nat) :
    Except GenError (List String) :=
  match firstFailure results order with
  | some e => .error e
  | none =>
    match collectOk results with
    | some vs => .ok vs
    | none => .error .fault

/-- `generateImages(prompt, numImages, baseImageUrls)` under environment
`env`, the promises settling in completion `order`. -/
def generateImages (env : Env) (prompt : String) (numImages : Nat)
    (baseImageUrls : List String) (order : List Nat) :
    Except GenError (List String) :=
  promiseAll ((List.range numImages).map (generateOne env prompt baseImageUrls)) order

/-- The two pieces of `App` state that a generate click settles into:
`generatedImages` and `error`. -/
structure AppState where
  generatedImages : List String
  error : Option String
deriving Repr, DecidableEq

/-- The tail of `handleGenerateClick`: `setGeneratedImages(images)` on
success; on a caught error, `generatedImages` stays the empty list set at
the start and `setError(e.message)` runs. -/
def handleGenerateResult (outcome : Except GenError (List String)) : AppState :=
  match outcome with
  | .ok images => { generatedImages := images, error := none }
  | .error e => { generatedImages := [], error := some e.message }

/-- `handleGenerateClick` of `App.tsx` past its early-return guard
(`!prompt.trim() || isLoading`): call `generateImages` on
`baseImageUrls.filter(url => url.trim() !== '')` and settle the state. -/
def handleGenerateClick (env : Env) (prompt : String) (numImages : Nat)
    (baseImageUrls : List String) (order : List Nat) : AppState :=
  handleGenerateResult
    (generateImages env prompt numImages
      (baseImageUrls.filter (fun url => url.trim != "")) order)

/-! Concrete fixtures for witnesses and counterexamples. -/

/-- A well-formed PNG blob. -/
def okBlob : Blob := { type := "image/png", base64 := "QUJD" }

/-- An HTML page blob (not an image). -/
def htmlBlob : Blob := { type := "text/html", base64 := "PGh0bWw+" }

/-- The inline image of the fixture generation response. -/
def okInline : InlineData := { data := "R0lG", mimeType := "image/png" }

/-- A generation response with one candidate carrying one inline image. -/
def okResponse : GenResponse :=
  { candidates := [{ content := { parts := [{ inlineData := some okInline }] } }] }

/-- Every fetch succeeds with `okBlob`; every generation succeeds. -/
def envAllOk : Env :=
  { proxyFetch := fun _ => .response true "OK" okBlob
    directFetch := fun _ => .response true "OK" okBlob
    generate := fun _ _ => .ok okResponse }

/-- The proxy fetch rejects, the direct fetch succeeds with `okBlob`. -/
def envProxyDownDirectOk : Env :=
  { proxyFetch := fun _ => .networkError "TypeError: Failed to fetch"
    directFetch := fun _ => .response true "OK" okBlob
    generate := fun _ _ => .ok okResponse }

/-- Both fetch paths reject at the network level. -/
def envAllFetchFail : Env :=
  { proxyFetch := fun _ => .networkError "TypeError: Failed to fetch"
    directFetch := fun _ => .networkError "TypeError: Failed to fetch"
    generate := fun _ _ => .ok okResponse }

/-- The proxy serves an HTML page, the direct fetch serves the image. -/
def envProxyHtml : Env :=
  { proxyFetch := fun _ => .response true "OK" htmlBlob
    directFetch := fun _ => .response true "OK" okBlob
    generate := fun _ _ => .ok okResponse }

/-- The proxy rejects and the direct fetch serves an HTML page. -/
def envDirectHtml : Env :=
  { proxyFetch := fun _ => .networkError "TypeError: Failed to fetch"
    directFetch := fun _ => .response true "OK" htmlBlob
    generate := fun _ _ => .ok okResponse }

/-! Helper lemmas. -/

theorem trim_empty : ("" : String).trim = "" := by
  have twa : Substring.takeWhileAux "" 0 Char.isWhitespace 0 = 0 := by
    unfold Substring.takeWhileAux
    simp
  have trwa : Substring.takeRightWhileAux "" 0 Char.isWhitespace 0 = 0 := by
    unfold Substring.takeRightWhileAux
    simp
  have h1 : "".endPos = 0 := rfl
  have h2 : ({ byteIdx := 0 } : String.Pos) = 0 := rfl
  show "".extract _ _ = ""
  rw [h1, h2, twa, trwa]
  rfl

theorem ne_empty_of_trim_ne (u : String) (h : u.trim ≠ "") : u ≠ "" := by
  intro he
  subst he
  exact h trim_empty

theorem collectOk_get (rs : List (Except GenError String)) (vs : List String)
    (h : collectOk rs = some vs) :
    vs.length = rs.length ∧ ∀ i : Nat, rs[i]? = (vs[i]?).map Except.ok := by
  induction rs generalizing vs with
  | nil =>
    simp only [collectOk, Option.some.injEq] at h
    subst h
    simp
  | cons r rest ih =>
    match r with
    | .error e => simp [collectOk] at h
    | .ok v =>
      cases hrest : collectOk rest with
      | none => simp [collectOk, hrest] at h
      | some vs' =>
        simp only [collectOk, hrest, Option.map_some', Option.some.injEq] at h
        obtain ⟨hl, hg⟩ := ih vs' hrest
        subst h
        refine ⟨by simp [hl], ?_⟩
        intro i
        cases i with
        | zero => simp
        | succ n => simpa using hg n

theorem collectOk_isSome (rs : List (Except GenError String))
    (h : ∀ i : Nat, i < rs.length → ∃ v, rs[i]? = some (.ok v)) :
    ∃ vs, collectOk rs = some vs := by
  induction rs with
  | nil => exact ⟨[], rfl⟩
  | cons r rest ih =>
    obtain ⟨v, hv⟩ := h 0 (by simp)
    simp only [List.getElem?_cons_zero, Option.some.injEq] at hv
    subst hv
    obtain ⟨vs, hvs⟩ := ih (fun i hi => by simpa using h (i + 1) (by simpa using hi))
    exact ⟨v :: vs, by simp [collectOk, hvs]⟩

theorem firstFailure_eq_none (rs : List (Except GenError String)) (order : List Nat)
    (h : ∀ (j : Nat) (e : GenError), rs[j]? ≠ some (Except.error e)) :
    firstFailure rs order = none := by
  induction order with
  | nil => rfl
  | cons i rest ih =>
    rw [firstFailure]
    cases hi : rs[i]? with
    | none => exact ih
    | some r =>
      cases r with
      | error e => exact absurd hi (h i e)
      | ok v => exact ih

theorem firstFailure_mem (rs : List (Except GenError String)) (order : List Nat)
    (j : Nat) (e0 : GenError) (hmem : j ∈ order) (hj : rs[j]? = some (Except.error e0)) :
    ∃ e, firstFailure rs order = some e ∧ ∃ k : Nat, rs[k]? = some (Except.error e) := by
  induction order with
  | nil => simp at hmem
  | cons i rest ih =>
    rw [firstFailure]
    cases hi : rs[i]? with
    | none =>
      have hj' : j ∈ rest := by
        rcases List.mem_cons.mp hmem with h1 | h2
        · subst h1; rw [hj] at hi; cases hi
        · exact h2
      exact ih hj'
    | some r =>
      cases r with
      | error e => exact ⟨e, rfl, i, hi⟩
      | ok v =>
        have hj' : j ∈ rest := by
          rcases List.mem_cons.mp hmem with h1 | h2
          · subst h1; rw [hj] at hi; cases hi
          · exact h2
        exact ih hj'

theorem firstFailure_unique (rs : List (Except GenError String)) (order : List Nat)
    (i : Nat) (e : GenError) (hi : rs[i]? = some (Except.error e))
    (hothers : ∀ k : Nat, k ≠ i → ∀ e', rs[k]? ≠ some (Except.error e'))
    (hmem : i ∈ order) :
    firstFailure rs order = some e := by
  induction order with
  | nil => simp at hmem
  | cons a rest ih =>
    rw [firstFailure]
    by_cases hai : a = i
    · subst hai
      rw [hi]
    · have hmem' : i ∈ rest := by
        rcases List.mem_cons.mp hmem with h1 | h2
        · exact absurd h1.symm hai
        · exact h2
      cases hra : rs[a]? with
      | none => exact ih hmem'
      | some r =>
        cases r with
        | error e' => exact absurd hra (hothers a hai e')
        | ok v => exact ih hmem'

theorem results_getElem (env : Env) (prompt : String) (urls : List String) (n i : Nat) :
    ((List.range n).map (generateOne env prompt urls))[i]? =
      if i < n then some (generateOne env prompt urls i) else none := by
  rcases Nat.lt_or_ge i n with h | h
  · rw [List.getElem?_eq_getElem (by simpa using h)]
    simp [h]
  · rw [List.getElem?_eq_none (by simpa using h), if_neg (Nat.not_lt.mpr h)]

theorem generateImages_ok_elim (env : Env) (prompt : String) (n : Nat)
    (urls : List String) (order : List Nat) (imgs : List String)
    (h : generateImages env prompt n urls order = .ok imgs) :
    imgs.length = n ∧
      ∀ i : Nat, i < n → ∃ v, generateOne env prompt urls i = .ok v ∧ imgs[i]? = some v := by
  unfold generateImages promiseAll at h
  cases hff : firstFailure ((List.range n).map (generateOne env prompt urls)) order with
  | some e => rw [hff] at h; cases h
  | none =>
    rw [hff] at h
    cases hco : collectOk ((List.range n).map (generateOne env prompt urls)) with
    | none => rw [hco] at h; cases h
    | some vs =>
      rw [hco] at h
      cases h
      obtain ⟨hl, hg⟩ := collectOk_get _ _ hco
      have hlen : imgs.length = n := by simpa using hl
      refine ⟨hlen, ?_⟩
      intro i hi
      have := hg i
      rw [results_getElem, if_pos hi] at this
      cases hv : imgs[i]? with
      | none => rw [hv] at this; simp at this
      | some v =>
        rw [hv] at this
        simp only [Option.map_some'] at this
        injection this with h3
        exact ⟨v, h3, rfl⟩

theorem generateImages_ok_intro (env : Env) (prompt : String) (n : Nat)
    (urls : List String) (order : List Nat)
    (h : ∀ i : Nat, i < n → ∃ v, generateOne env prompt urls i = .ok v) :
    ∃ imgs, generateImages env prompt n urls order = .ok imgs ∧ imgs.length = n := by
  have hall : ∀ (j : Nat) (e : GenError),
      ((List.range n).map (generateOne env prompt urls))[j]? ≠ some (Except.error e) := by
    intro j e hje
    rw [results_getElem] at hje
    by_cases hj : j < n
    · rw [if_pos hj] at hje
      obtain ⟨v, hv⟩ := h j hj
      rw [hv] at hje
      simp at hje
    · rw [if_neg hj] at hje
      cases hje
  obtain ⟨vs, hvs⟩ := collectOk_isSome ((List.range n).map (generateOne env prompt urls))
    (by
      intro i hi
      have hi' : i < n := by simpa using hi
      obtain ⟨v, hv⟩ := h i hi'
      refine ⟨v, ?_⟩
      rw [results_getElem, if_pos hi', hv])
  refine ⟨vs, ?_, ?_⟩
  · unfold generateImages promiseAll
    rw [firstFailure_eq_none _ _ hall, hvs]
  · have := (collectOk_get _ _ hvs).1
    simpa using this

theorem generateImages_error_of_fail (env : Env) (prompt : String) (n : Nat)
    (urls : List String) (order : List Nat) (j : Nat) (e0 : GenError)
    (hj : j < n) (hfail : generateOne env prompt urls j = .error e0) (hmem : j ∈ order) :
    ∃ e, generateImages env prompt n urls order = .error e ∧
      ∃ k : Nat, k < n ∧ generateOne env prompt urls k = .error e := by
  obtain ⟨e, hff, k, hk⟩ := firstFailure_mem ((List.range n).map (generateOne env prompt urls))
    order j e0 hmem (by rw [results_getElem, if_pos hj, hfail])
  rw [results_getElem] at hk
  by_cases hkn : k < n
  · rw [if_pos hkn] at hk
    refine ⟨e, ?_, k, hkn, Option.some.inj hk⟩
    unfold generateImages promiseAll
    rw [hff]
  · rw [if_neg hkn] at hk
    cases hk

theorem generateImages_error_unique (env : Env) (prompt : String) (n : Nat)
    (urls : List String) (order : List Nat) (i : Nat) (e : GenError)
    (hi : i < n) (hfail : generateOne env prompt urls i = .error e)
    (hothers : ∀ k : Nat, k < n → k ≠ i → ∃ v, generateOne env prompt urls k = .ok v)
    (hmem : i ∈ order) :
    generateImages env prompt n urls order = .error e := by
  have hff := firstFailure_unique ((List.range n).map (generateOne env prompt urls)) order i e
    (by rw [results_getElem, if_pos hi, hfail])
    (by
      intro k hk e' hke
      rw [results_getElem] at hke
      by_cases hkn : k < n
      · rw [if_pos hkn] at hke
        obtain ⟨v, hv⟩ := hothers k hkn hk
        rw [hv] at hke
        simp at hke
      · rw [if_neg hkn] at hke
        cases hke)
    hmem
  unfold generateImages promiseAll
  rw [hff]

theorem buildParts_blank (env : Env) (prompt : String) (urls : List String) (i : Nat)
    (hblank : ∀ u ∈ urls, u.trim = "") :
    buildParts env prompt urls i = .ok [Part.text prompt] := by
  cases hu : urls[i]? with
  | none => simp [buildParts, hu]
  | some u =>
    have ht : u.trim = "" := hblank u (List.getElem?_mem hu)
    simp [buildParts, hu, ht]

theorem buildParts_ref (env : Env) (prompt : String) (urls : List String) (i : Nat)
    (u : String) (p : ImagePayload) (hu : urls[i]? = some u) (hne : u.trim ≠ "")
    (hres : (urlToBase64 env u).1 = .ok p) :
    buildParts env prompt urls i =
      .ok [Part.inlineData { data := p.base64, mimeType := p.mimeType }, Part.text prompt] := by
  simp [buildParts, hu, hne, ne_empty_of_trim_ne u hne, hres]

theorem buildParts_ref_fail (env : Env) (prompt : String) (urls : List String) (i : Nat)
    (u msg : String) (hu : urls[i]? = some u) (hne : u.trim ≠ "")
    (hres : (urlToBase64 env u).1 = .error msg) :
    buildParts env prompt urls i =
      .error (.thrown ("Error con la Imagen Base " ++ toString (i + 1) ++ ": " ++ msg)) := by
  simp [buildParts, hu, hne, ne_empty_of_trim_ne u hne, hres]

theorem urlToBase64_both_fail (env : Env) (url : String) (e1 e2 : String)
    (h1 : fetchBody (env.proxyFetch url) "Proxy fetch failed with status: " = .error e1)
    (h2 : fetchBody (env.directFetch url) "Direct fetch failed with status: " = .error e2) :
    urlToBase64 env url = (.error urlToBase64FallbackError, [.proxy url, .direct url]) := by
  simp [urlToBase64, h1, h2]

/-! Concrete evaluation lemmas for the fixtures.  `String.trim` and
`String.startsWith` hide well-founded recursion, so concrete values are
computed once here by unfolding their auxiliary loops. -/

theorem trim_u : ("u" : String).trim = "u" := by
  have twa : Substring.takeWhileAux "u" ⟨1⟩ Char.isWhitespace 0 = 0 := by
    unfold Substring.takeWhileAux
    decide
  have trwa : Substring.takeRightWhileAux "u" 0 Char.isWhitespace ⟨1⟩ = ⟨1⟩ := by
    unfold Substring.takeRightWhileAux
    decide
  have h1 : "u".endPos = ⟨1⟩ := rfl
  have h2 : ({ byteIdx := 0 } : String.Pos) = 0 := rfl
  show "u".extract _ _ = "u"
  rw [h1, h2, twa, trwa]
  decide

theorem trim_w : ("w" : String).trim = "w" := by
  have twa : Substring.takeWhileAux "w" ⟨1⟩ Char.isWhitespace 0 = 0 := by
    unfold Substring.takeWhileAux
    decide
  have trwa : Substring.takeRightWhileAux "w" 0 Char.isWhitespace ⟨1⟩ = ⟨1⟩ := by
    unfold Substring.takeRightWhileAux
    decide
  have h1 : "w".endPos = ⟨1⟩ := rfl
  have h2 : ({ byteIdx := 0 } : String.Pos) = 0 := rfl
  show "w".extract _ _ = "w"
  rw [h1, h2, twa, trwa]
  decide

theorem startsWith_html : ("text/html".startsWith "image/") = false := by
  have h : String.substrEq "text/html" 0 "image/" 0 6 = false := by
    unfold String.substrEq
    unfold String.substrEq.loop
    decide
  show (6 == 6 && String.substrEq "text/html" 0 "image/" 0 6) = false
  rw [h]
  decide

theorem startsWith_png : ("image/png".startsWith "image/") = true := by
  have h : String.substrEq "image/png" 0 "image/" 0 6 = true := by
    unfold String.substrEq
    unfold String.substrEq.loop
    unfold String.substrEq.loop
    unfold String.substrEq.loop
    unfold String.substrEq.loop
    unfold String.substrEq.loop
    unfold String.substrEq.loop
    unfold String.substrEq.loop
    decide
  show (6 == 6 && String.substrEq "image/png" 0 "image/" 0 6) = true
  rw [h]
  decide

theorem processBlob_okBlob :
    processBlob okBlob = .ok { base64 := "QUJD", mimeType := "image/png" } := by
  simp [processBlob, okBlob, startsWith_png]

theorem processBlob_htmlBlob :
    processBlob htmlBlob = .error "Fetched file is not an image." := by
  simp [processBlob, htmlBlob, startsWith_html]

theorem urlToBase64_envAllOk (u : String) :
    urlToBase64 envAllOk u
      = (.ok { base64 := "QUJD", mimeType := "image/png" }, [.proxy u]) := by
  have hp : fetchBody (envAllOk.proxyFetch u) "Proxy fetch failed with status: "
      = .ok { base64 := "QUJD", mimeType := "image/png" } := by
    show fetchBody (.response true "OK" okBlob) _ = _
    simpa [fetchBody] using processBlob_okBlob
  simp [urlToBase64, hp]

theorem urlToBase64_envProxyDownDirectOk (u : String) :
    urlToBase64 envProxyDownDirectOk u
      = (.ok { base64 := "QUJD", mimeType := "image/png" }, [.proxy u, .direct u]) := by
  have hd : fetchBody (envProxyDownDirectOk.directFetch u) "Direct fetch failed with status: "
      = .ok { base64 := "QUJD", mimeType := "image/png" } := by
    show fetchBody (.response true "OK" okBlob) _ = _
    simpa [fetchBody] using processBlob_okBlob
  have hp : fetchBody (envProxyDownDirectOk.proxyFetch u) "Proxy fetch failed with status: "
      = .error "TypeError: Failed to fetch" := rfl
  simp [urlToBase64, hp, hd]

theorem urlToBase64_envAllFetchFail (u : String) :
    urlToBase64 envAllFetchFail u
      = (.error urlToBase64FallbackError, [.proxy u, .direct u]) :=
  urlToBase64_both_fail envAllFetchFail u _ _ rfl rfl

theorem urlToBase64_envProxyHtml (u : String) :
    urlToBase64 envProxyHtml u
      = (.ok { base64 := "QUJD", mimeType := "image/png" }, [.proxy u, .direct u]) := by
  have hp : fetchBody (envProxyHtml.proxyFetch u) "Proxy fetch failed with status: "
      = .error "Fetched file is not an image." := by
    show fetchBody (.response true "OK" htmlBlob) _ = _
    simpa [fetchBody] using processBlob_htmlBlob
  have hd : fetchBody (envProxyHtml.directFetch u) "Direct fetch failed with status: "
      = .ok { base64 := "QUJD", mimeType := "image/png" } := by
    show fetchBody (.response true "OK" okBlob) _ = _
    simpa [fetchBody] using processBlob_okBlob
  simp [urlToBase64, hp, hd]

theorem urlToBase64_envDirectHtml (u : String) :
    urlToBase64 envDirectHtml u
      = (.error urlToBase64FallbackError, [.proxy u, .direct u]) := by
  apply urlToBase64_both_fail envDirectHtml u "TypeError: Failed to fetch"
    "Fetched file is not an image." rfl
  show fetchBody (.response true "OK" htmlBlob) _ = _
  simpa [fetchBody] using processBlob_htmlBlob

theorem generateOne_envAllFetchFail (prompt : String) (urls : List String) (i : Nat)
    (u : String) (hu : urls[i]? = some u) (hne : u.trim ≠ "") :
    generateOne envAllFetchFail prompt urls i
      = .error (.thrown ("Error con la Imagen Base " ++ toString (i + 1) ++ ": "
          ++ urlToBase64FallbackError)) := by
  have hb := buildParts_ref_fail envAllFetchFail prompt urls i u urlToBase64FallbackError hu hne
    (by rw [urlToBase64_envAllFetchFail u])
  unfold generateOne
  rw [hb]

theorem generateOne_envAllOk_ref (prompt : String) (urls : List String) (i : Nat)
    (u : String) (hu : urls[i]? = some u) (hne : u.trim ≠ "") :
    generateOne envAllOk prompt urls i
      = .ok ("data:" ++ "image/png" ++ ";base64," ++ "R0lG") := by
  have hb := buildParts_ref envAllOk prompt urls i u
    { base64 := "QUJD", mimeType := "image/png" } hu hne (by rw [urlToBase64_envAllOk u])
  unfold generateOne
  rw [hb]
  rfl

theorem generateOne_envProxyHtml_ref (prompt : String) (urls : List String) (i : Nat)
    (u : String) (hu : urls[i]? = some u) (hne : u.trim ≠ "") :
    generateOne envProxyHtml prompt urls i
      = .ok ("data:" ++ "image/png" ++ ";base64," ++ "R0lG") := by
  have hb := buildParts_ref envProxyHtml prompt urls i u
    { base64 := "QUJD", mimeType := "image/png" } hu hne (by rw [urlToBase64_envProxyHtml u])
  unfold generateOne
  rw [hb]
  rfl

theorem firstInlinePart_eq_none_iff (ps : List RespPart) :
    firstInlinePart ps = none ↔ ∀ p ∈ ps, p.inlineData = none := by
  induction ps with
  | nil => simp [firstInlinePart]
  | cons p rest ih =>
    cases hp : p.inlineData with
    | some d => simp [firstInlinePart, hp]
    | none => simp [firstInlinePart, hp, ih]

/-! The claims. -/

/-- C1: for every count in [1,4] and an empty or all-blank reference-URL
list, `generateImages` issues exactly `count` generation requests, each
carrying only the prompt text and no image part, and, when every per-index
operation succeeds, returns a list of exactly `count` images (for any
completion order of the promises). -/
theorem claim_C1 (env : Env) (prompt : String) (urls : List String) (count : Nat)
    (order : List Nat) (h1 : 1 ≤ count) (h4 : count ≤ 4)
    (hblank : ∀ u ∈ urls, u.trim = "")
    (hok : ∀ i : Nat, i < count → ∃ v, generateOne env prompt urls i = .ok v) :
    issuedRequests env prompt urls count
        = List.replicate count (some (mkGenRequest [Part.text prompt])) ∧
    ∃ imgs, generateImages env prompt count urls order = .ok imgs ∧ imgs.length = count := by
  constructor
  · refine List.eq_replicate_iff.mpr ⟨by simp [issuedRequests], ?_⟩
    intro b hb
    simp only [issuedRequests, List.mem_map, List.mem_range] at hb
    obtain ⟨i, hi, rfl⟩ := hb
    simp [requestForIndex, buildParts_blank env prompt urls i hblank]
  · exact generateImages_ok_intro env prompt count urls order hok

/-- Witness for C1: count 2, no reference URLs, all generations succeed. -/
theorem claim_C1_witness :
    issuedRequests envAllOk "a cat" [] 2
        = List.replicate 2 (some (mkGenRequest [Part.text "a cat"])) ∧
    ∃ imgs, generateImages envAllOk "a cat" 2 [] [0, 1] = .ok imgs ∧ imgs.length = 2 :=
  claim_C1 envAllOk "a cat" [] 2 [0, 1] (by decide) (by decide)
    (fun u hu => absurd hu (List.not_mem_nil u))
    (by
      intro i hi
      interval_cases i <;> exact ⟨_, rfl⟩)

/-- C2: `urlToBase64` always fetches through the CORS proxy first; it makes
at most two fetch attempts (the proxied one, then at most one direct fetch
of the same URL); any failure of the proxy attempt triggers exactly one
direct fetch; and when both attempts fail the call throws the user-facing
fallback error describing the likely cross-origin block and the
copy-the-image-address workaround. -/
theorem claim_C2 (env : Env) (url : String) :
    (urlToBase64 env url).2.head? = some (.proxy url) ∧
    ((urlToBase64 env url).2 = [.proxy url] ∨
      (urlToBase64 env url).2 = [.proxy url, .direct url]) ∧
    (∀ e, fetchBody (env.proxyFetch url) "Proxy fetch failed with status: " = .error e →
      (urlToBase64 env url).2 = [.proxy url, .direct url]) ∧
    (∀ e e', fetchBody (env.proxyFetch url) "Proxy fetch failed with status: " = .error e →
      fetchBody (env.directFetch url) "Direct fetch failed with status: " = .error e' →
      (urlToBase64 env url).1 = .error urlToBase64FallbackError) := by
  unfold urlToBase64
  cases hp : fetchBody (env.proxyFetch url) "Proxy fetch failed with status: " with
  | ok p =>
    exact ⟨rfl, Or.inl rfl, fun e he => Except.noConfusion he,
      fun e e' he _ => Except.noConfusion he⟩
  | error e0 =>
    cases hd : fetchBody (env.directFetch url) "Direct fetch failed with status: " with
    | ok p =>
      exact ⟨rfl, Or.inr rfl, fun _ _ => rfl, fun e e' _ hd' => Except.noConfusion hd'⟩
    | error e0' =>
      exact ⟨rfl, Or.inr rfl, fun _ _ => rfl, fun _ _ _ _ => rfl⟩

/-- Witness for C2: with both fetch paths failing, the attempt list is
proxy-then-direct and the result is the user-facing fallback error. -/
theorem claim_C2_witness :
    (urlToBase64 envAllFetchFail "u").2.head? = some (.proxy "u") ∧
    (urlToBase64 envAllFetchFail "u").1 = .error urlToBase64FallbackError :=
  ⟨(claim_C2 envAllFetchFail "u").1,
    (claim_C2 envAllFetchFail "u").2.2.2 _ _ rfl rfl⟩

/-- C3: when any per-index operation of `generateImages` fails, the whole
call fails with a single error — the reason of the first rejection in
completion order, which is the error of one of the failing operations — no
partial image list is returned, and the caller's state shows that error's
message and no images. -/
theorem claim_C3 (env : Env) (prompt : String) (n : Nat) (urls : List String)
    (order : List Nat) (j : Nat) (e0 : GenError)
    (hj : j < n) (hmem : j ∈ order)
    (hfail : generateOne env prompt urls j = .error e0) :
    ∃ e, generateImages env prompt n urls order = .error e ∧
      (∃ k : Nat, k < n ∧ generateOne env prompt urls k = .error e) ∧
      handleGenerateResult (generateImages env prompt n urls order)
        = { generatedImages := [], error := some e.message } := by
  obtain ⟨e, he, hk⟩ := generateImages_error_of_fail env prompt n urls order j e0 hj hfail hmem
  exact ⟨e, he, hk, by rw [he]; rfl⟩

/-- Witness for C3: one reference URL whose fetches both fail makes the
whole batch fail and the UI show the error with no images. -/
theorem claim_C3_witness :
    ∃ e, generateImages envAllFetchFail "p" 1 ["u"] [0] = .error e ∧
      (∃ k : Nat, k < 1 ∧ generateOne envAllFetchFail "p" ["u"] k = .error e) ∧
      handleGenerateResult (generateImages envAllFetchFail "p" 1 ["u"] [0])
        = { generatedImages := [], error := some e.message } :=
  claim_C3 envAllFetchFail "p" 1 ["u"] [0] 0 _ (by decide) (by decide)
    (generateOne_envAllFetchFail "p" ["u"] 0 "u" rfl (by rw [trim_u]; decide))

/-- C4: a successful `generateImages` result has one image per request, the
image at position `i` being the one produced by the per-index operation for
`i`, and the same list is returned under every completion order of the
underlying calls. -/
theorem claim_C4 (env : Env) (prompt : String) (n : Nat) (urls : List String)
    (order : List Nat) (imgs : List String)
    (h : generateImages env prompt n urls order = .ok imgs) :
    imgs.length = n ∧
    (∀ order', generateImages env prompt n urls order' = .ok imgs) ∧
    ∀ i : Nat, i < n → ∃ v, generateOne env prompt urls i = .ok v ∧ imgs[i]? = some v := by
  obtain ⟨hlen, hg⟩ := generateImages_ok_elim env prompt n urls order imgs h
  refine ⟨hlen, ?_, hg⟩
  intro order'
  obtain ⟨imgs', h', hlen'⟩ := generateImages_ok_intro env prompt n urls order'
    (fun i hi => (hg i hi).elim (fun v hv => ⟨v, hv.1⟩))
  obtain ⟨_, hg'⟩ := generateImages_ok_elim env prompt n urls order' imgs' h'
  have heq : imgs' = imgs := by
    apply List.ext_getElem?
    intro i
    by_cases hi : i < n
    · obtain ⟨v, hv1, hv2⟩ := hg i hi
      obtain ⟨v', hv1', hv2'⟩ := hg' i hi
      rw [hv2, hv2']
      have : Except.ok (ε := GenError) v = Except.ok v' := hv1 ▸ hv1'
      injection this with hvv
      rw [hvv]
    · rw [List.getElem?_eq_none (by rw [hlen']; omega),
        List.getElem?_eq_none (by rw [hlen]; omega)]
  rw [← heq]
  exact h'

/-- Witness for C4: a one-image batch with no references succeeds with the
same singleton list under a different completion order. -/
theorem claim_C4_witness :
    (["data:" ++ "image/png" ++ ";base64," ++ "R0lG"] : List String).length = 1 ∧
    generateImages envAllOk "p" 1 [] [99, 0]
      = .ok ["data:" ++ "image/png" ++ ";base64," ++ "R0lG"] := by
  have h := claim_C4 envAllOk "p" 1 [] [0] ["data:" ++ "image/png" ++ ";base64," ++ "R0lG"] rfl
  exact ⟨h.1, h.2.1 [99, 0]⟩

/-- C5: `generateImages` always builds one request per index in
[0, count); the request for an index whose reference URL is present and
non-blank and resolves to a payload carries exactly one inline image part —
that payload's bytes and MIME type — in front of the prompt text, and the
request for an index whose reference URL is absent or blank carries only
the prompt text. -/
theorem claim_C5 (env : Env) (prompt : String) (urls : List String) (n : Nat) :
    (issuedRequests env prompt urls n).length = n ∧
    (∀ i : Nat, i < n → ∀ u, urls[i]? = some u → u.trim ≠ "" →
      ∀ p, (urlToBase64 env u).1 = .ok p →
        requestForIndex env prompt urls i
          = some (mkGenRequest
              [Part.inlineData { data := p.base64, mimeType := p.mimeType },
                Part.text prompt])) ∧
    (∀ i : Nat, i < n → ∀ u, urls[i]? = some u → u.trim = "" →
      requestForIndex env prompt urls i = some (mkGenRequest [Part.text prompt])) ∧
    (∀ i : Nat, i < n → urls[i]? = none →
      requestForIndex env prompt urls i = some (mkGenRequest [Part.text prompt])) := by
  refine ⟨by simp [issuedRequests], ?_, ?_, ?_⟩
  · intro i _ u hu hne p hp
    rw [requestForIndex, buildParts_ref env prompt urls i u p hu hne hp]
  · intro i _ u hu ht
    simp [requestForIndex, buildParts, hu, ht]
  · intro i _ hnone
    simp [requestForIndex, buildParts, hnone]

/-- Witness for C5: one resolving reference URL yields one request carrying
exactly that image payload in front of the prompt. -/
theorem claim_C5_witness :
    (issuedRequests envAllOk "p" ["u"] 1).length = 1 ∧
    requestForIndex envAllOk "p" ["u"] 0
      = some (mkGenRequest
          [Part.inlineData { data := "QUJD", mimeType := "image/png" }, Part.text "p"]) := by
  have h := claim_C5 envAllOk "p" ["u"] 1
  refine ⟨h.1, ?_⟩
  exact h.2.1 0 (by decide) "u" rfl (by rw [trim_u]; decide)
    { base64 := "QUJD", mimeType := "image/png" } (by rw [urlToBase64_envAllOk "u"])

theorem processBlob_not_image (blob : Blob) (h : blob.type.startsWith "image/" = false) :
    processBlob blob = .error "Fetched file is not an image." := by
  simp [processBlob, h]

/-- Counterexample to C6 as stated: the proxy path returns a non-image
(HTML) response for the reference URL, yet the batch succeeds — the
non-image proxy response only triggers the direct fallback, which serves
the image. -/
theorem claim_C6_counterexample :
    envProxyHtml.proxyFetch "u" = .response true "OK" htmlBlob ∧
    htmlBlob.type.startsWith "image/" = false ∧
    generateImages envProxyHtml "p" 1 ["u"] [0]
      = .ok ["data:" ++ "image/png" ++ ";base64," ++ "R0lG"] := by
  refine ⟨rfl, startsWith_html, ?_⟩
  have h := generateOne_envProxyHtml_ref "p" ["u"] 0 "u" rfl (by rw [trim_u]; decide)
  unfold generateImages promiseAll
  have hrs : (List.range 1).map (generateOne envProxyHtml "p" ["u"])
      = [generateOne envProxyHtml "p" ["u"] 0] := rfl
  rw [hrs, h]
  rfl

/-- C6 (amended): a non-image response on the proxy path does not by itself
fail the batch — it only triggers the direct fallback — while a non-image
response on the direct path, after a failed proxy attempt, fails the
reference resolution (and hence the batch, when a slot references that URL)
with the generic could-not-load fallback message rather than with the
internal "is not an image" error, which is never surfaced. -/
theorem claim_C6 (env : Env) (url : String) :
    (∀ st blob, env.proxyFetch url = .response true st blob →
      blob.type.startsWith "image/" = false →
      (urlToBase64 env url).2 = [.proxy url, .direct url]) ∧
    (∀ e st blob,
      fetchBody (env.proxyFetch url) "Proxy fetch failed with status: " = .error e →
      env.directFetch url = .response true st blob →
      blob.type.startsWith "image/" = false →
      (urlToBase64 env url).1 = .error urlToBase64FallbackError) ∧
    (∀ (prompt : String) (n : Nat) (urls : List String) (order : List Nat) (i : Nat)
        (e st : String) (blob : Blob),
      fetchBody (env.proxyFetch url) "Proxy fetch failed with status: " = .error e →
      env.directFetch url = .response true st blob →
      blob.type.startsWith "image/" = false →
      i < n → i ∈ order → urls[i]? = some url → url.trim ≠ "" →
      ∃ e2, generateImages env prompt n urls order = .error e2) ∧
    urlToBase64FallbackError ≠ "Fetched file is not an image." := by
  have hboth : ∀ (e st : String) (blob : Blob),
      fetchBody (env.proxyFetch url) "Proxy fetch failed with status: " = .error e →
      env.directFetch url = .response true st blob →
      blob.type.startsWith "image/" = false →
      (urlToBase64 env url).1 = .error urlToBase64FallbackError := by
    intro e st blob hfp hd hni
    have hdb : fetchBody (env.directFetch url) "Direct fetch failed with status: "
        = .error "Fetched file is not an image." := by
      rw [hd]
      simp [fetchBody, processBlob_not_image blob hni]
    rw [urlToBase64_both_fail env url e "Fetched file is not an image." hfp hdb]
  refine ⟨?_, hboth, ?_, by decide⟩
  · intro st blob hp hni
    have hfb : fetchBody (env.proxyFetch url) "Proxy fetch failed with status: "
        = .error "Fetched file is not an image." := by
      rw [hp]
      simp [fetchBody, processBlob_not_image blob hni]
    cases hd : fetchBody (env.directFetch url) "Direct fetch failed with status: " with
    | ok p => simp [urlToBase64, hfb, hd]
    | error e => simp [urlToBase64, hfb, hd]
  · intro prompt n urls order i e st blob hfp hd hni hin hmem hu hne
    have h1 := hboth e st blob hfp hd hni
    have hg : generateOne env prompt urls i
        = .error (.thrown ("Error con la Imagen Base " ++ toString (i + 1) ++ ": "
            ++ urlToBase64FallbackError)) := by
      have hb := buildParts_ref_fail env prompt urls i url urlToBase64FallbackError hu hne h1
      unfold generateOne
      rw [hb]
    obtain ⟨e2, he2, _⟩ := generateImages_error_of_fail env prompt n urls order i _ hin hg hmem
    exact ⟨e2, he2⟩

/-- Witness for the amended C6: the direct path serves an HTML page after a
failed proxy attempt, and the resolution fails with the generic fallback
message. -/
theorem claim_C6_witness :
    (urlToBase64 envDirectHtml "u").1 = .error urlToBase64FallbackError :=
  (claim_C6 envDirectHtml "u").2.1 "TypeError: Failed to fetch" "OK" htmlBlob rfl rfl
    startsWith_html

/-- Counterexample to C7 as stated: both reference URLs fail both fetch
paths; with the index-1 promise settling first, the batch error names slot
2 and not slot 1, although slot 1's reference also failed both fetches. -/
theorem claim_C7_counterexample :
    (urlToBase64 envAllFetchFail "u").1 = .error urlToBase64FallbackError ∧
    generateImages envAllFetchFail "p" 2 ["u", "w"] [1, 0]
      = .error (.thrown ("Error con la Imagen Base " ++ toString (1 + 1) ++ ": "
          ++ urlToBase64FallbackError)) ∧
    GenError.thrown ("Error con la Imagen Base " ++ toString (1 + 1) ++ ": "
        ++ urlToBase64FallbackError)
      ≠ .thrown ("Error con la Imagen Base " ++ toString (0 + 1) ++ ": "
          ++ urlToBase64FallbackError) := by
  refine ⟨by rw [urlToBase64_envAllFetchFail "u"], ?_, by decide⟩
  have h0 := generateOne_envAllFetchFail "p" ["u", "w"] 0 "u" rfl (by rw [trim_u]; decide)
  have h1 := generateOne_envAllFetchFail "p" ["u", "w"] 1 "w" rfl (by rw [trim_w]; decide)
  unfold generateImages promiseAll
  have hrs : (List.range 2).map (generateOne envAllFetchFail "p" ["u", "w"])
      = [generateOne envAllFetchFail "p" ["u", "w"] 0,
          generateOne envAllFetchFail "p" ["u", "w"] 1] := rfl
  rw [hrs, h0, h1]
  rfl

/-- C7 (amended): when the reference URL at index `i` fails both the proxy
and the direct fetch, the batch fails; the surfaced error is that of the
first failing operation in completion order, so it names slot `i + 1`
whenever every other per-index operation succeeds. -/
theorem claim_C7 (env : Env) (prompt : String) (n : Nat) (urls : List String)
    (order : List Nat) (i : Nat) (url : String) (e1 e2 : String)
    (hi : i < n) (hmem : i ∈ order) (hu : urls[i]? = some url) (hne : url.trim ≠ "")
    (hp : fetchBody (env.proxyFetch url) "Proxy fetch failed with status: " = .error e1)
    (hd : fetchBody (env.directFetch url) "Direct fetch failed with status: " = .error e2)
    (hothers : ∀ k : Nat, k < n → k ≠ i → ∃ v, generateOne env prompt urls k = .ok v) :
    generateImages env prompt n urls order
      = .error (.thrown ("Error con la Imagen Base " ++ toString (i + 1) ++ ": "
          ++ urlToBase64FallbackError)) := by
  have h1 : (urlToBase64 env url).1 = .error urlToBase64FallbackError := by
    rw [urlToBase64_both_fail env url e1 e2 hp hd]
  have hg : generateOne env prompt urls i
      = .error (.thrown ("Error con la Imagen Base " ++ toString (i + 1) ++ ": "
          ++ urlToBase64FallbackError)) := by
    have hb := buildParts_ref_fail env prompt urls i url urlToBase64FallbackError hu hne h1
    unfold generateOne
    rw [hb]
  exact generateImages_error_unique env prompt n urls order i _ hi hg hothers hmem

/-- Witness for the amended C7: a single reference slot failing both fetch
paths makes the batch fail with the error naming slot 1. -/
theorem claim_C7_witness :
    generateImages envAllFetchFail "p" 1 ["u"] [0]
      = .error (.thrown ("Error con la Imagen Base " ++ toString (0 + 1) ++ ": "
          ++ urlToBase64FallbackError)) :=
  claim_C7 envAllFetchFail "p" 1 ["u"] [0] 0 "u" "TypeError: Failed to fetch"
    "TypeError: Failed to fetch" (by decide) (by decide) rfl (by rw [trim_u]; decide)
    rfl rfl (fun k hk hki => absurd (Nat.lt_one_iff.mp hk) hki)

/-- C8: if the proxy attempt fails but the direct fetch returns a blob that
processes to payload `p`, `urlToBase64` returns exactly the same payload —
same base64 data and MIME type — as under an environment whose proxy fetch
succeeds with that same blob. -/
theorem claim_C8 (env env' : Env) (url : String) (st st' : String) (blob : Blob)
    (p : ImagePayload) (e : String)
    (hpfail : fetchBody (env.proxyFetch url) "Proxy fetch failed with status: " = .error e)
    (hdirect : env.directFetch url = .response true st blob)
    (hproxy' : env'.proxyFetch url = .response true st' blob)
    (hblob : processBlob blob = .ok p) :
    (urlToBase64 env url).1 = .ok p ∧ (urlToBase64 env' url).1 = .ok p := by
  constructor
  · have hd : fetchBody (env.directFetch url) "Direct fetch failed with status: " = .ok p := by
      rw [hdirect]
      simpa [fetchBody] using hblob
    simp [urlToBase64, hpfail, hd]
  · have hp : fetchBody (env'.proxyFetch url) "Proxy fetch failed with status: " = .ok p := by
      rw [hproxy']
      simpa [fetchBody] using hblob
    simp [urlToBase64, hp]

/-- Witness for C8: proxy-down-then-direct and proxy-only environments
yield the same payload for the same served blob. -/
theorem claim_C8_witness :
    (urlToBase64 envProxyDownDirectOk "u").1
        = .ok { base64 := "QUJD", mimeType := "image/png" } ∧
    (urlToBase64 envAllOk "u").1 = .ok { base64 := "QUJD", mimeType := "image/png" } :=
  claim_C8 envProxyDownDirectOk envAllOk "u" "OK" "OK" okBlob
    { base64 := "QUJD", mimeType := "image/png" } "TypeError: Failed to fetch"
    rfl rfl rfl processBlob_okBlob

/-- C9: `handleGenerateClick` drops every blank entry of `baseImageUrls`
before calling `generateImages`, so with a blank entry ahead of a non-blank
one the request at index 0 is conditioned by the first non-blank URL rather
than by the URL of UI slot 0, and the whole click behaves exactly as if the
blank slot did not exist: slot numbering and output alignment refer to the
compacted list. -/
theorem claim_C9 (env : Env) (prompt : String) (blank url : String) (rest : List String)
    (hb : blank.trim = "") (hu : url.trim ≠ "") :
    (blank :: url :: rest).filter (fun u => u.trim != "")
        = url :: rest.filter (fun u => u.trim != "") ∧
    requestForIndex env prompt
        ((blank :: url :: rest).filter (fun u => u.trim != "")) 0
      = requestForIndex env prompt [url] 0 ∧
    ∀ (numImages : Nat) (order : List Nat),
      handleGenerateClick env prompt numImages (blank :: url :: rest) order
        = handleGenerateClick env prompt numImages (url :: rest) order := by
  have hfilter : (blank :: url :: rest).filter (fun u => u.trim != "")
      = url :: rest.filter (fun u => u.trim != "") := by
    simp [List.filter_cons, hb, hu, bne_iff_ne]
  have hfilter2 : (url :: rest).filter (fun u => u.trim != "")
      = url :: rest.filter (fun u => u.trim != "") := by
    simp [List.filter_cons, hu, bne_iff_ne]
  refine ⟨hfilter, ?_, ?_⟩
  · rw [hfilter]
    simp only [requestForIndex, buildParts, List.getElem?_cons_zero]
  · intro numImages order
    unfold handleGenerateClick
    rw [hfilter, hfilter2]

/-- Witness for C9: a blank slot ahead of the URL "u" is dropped, and the
click behaves as with ["u"] alone. -/
theorem claim_C9_witness :
    ("" :: "u" :: []).filter (fun u => u.trim != "") = ["u"] ∧
    handleGenerateClick envAllOk "p" 1 ["", "u"] [0]
      = handleGenerateClick envAllOk "p" 1 ["u"] [0] := by
  have h := claim_C9 envAllOk "p" "" "u" [] trim_empty (by rw [trim_u]; decide)
  exact ⟨h.1, h.2.2 1 [0]⟩

/-- C10: result extraction reads the first candidate without a guard: with
at least one candidate it is total — it returns the first part carrying
inline data as a data URL, and raises the "image i+1 could not be
generated" error exactly when no part carries inline data — while a
response with no candidates faults instead of raising that designed
error. -/
theorem claim_C10 (i : Nat) (r : GenResponse) :
    (∀ c rest, r.candidates = c :: rest →
      (∀ d, firstInlinePart c.content.parts = some d →
        extractImage i r = .ok ("data:" ++ d.mimeType ++ ";base64," ++ d.data)) ∧
      ((∀ p ∈ c.content.parts, p.inlineData = none) ↔
        extractImage i r
          = .error (.thrown ("La imagen " ++ toString (i + 1)
              ++ " no pudo ser generada.")))) ∧
    (r.candidates = [] → extractImage i r = .error .fault) := by
  constructor
  · intro c rest hc
    constructor
    · intro d hd
      simp [extractImage, hc, hd]
    · constructor
      · intro hall
        have hn : firstInlinePart c.content.parts = none :=
          (firstInlinePart_eq_none_iff c.content.parts).mpr hall
        simp [extractImage, hc, hn]
      · intro he
        cases hfip : firstInlinePart c.content.parts with
        | none => exact (firstInlinePart_eq_none_iff c.content.parts).mp hfip
        | some d => simp [extractImage, hc, hfip] at he
  · intro hc
    simp [extractImage, hc]

/-- Witness for C10: the fixture response with one inline part extracts to
its data URL. -/
theorem claim_C10_witness :
    extractImage 0 okResponse = .ok ("data:" ++ "image/png" ++ ";base64," ++ "R0lG") :=
  ((claim_C10 0 okResponse).1 _ _ rfl).1 okInline rfl

end CatanStudio
